import Mathlib

/-
Shallow embedding of the libmcu button engine
(src/modules/button/src/button.c) in Lean 4.

Modelling conventions:
- waveform_t is uint32_t: modelled as Nat with explicit reduction mod 2 ^ 32
  at every operation that can overflow (shift, subtraction).
- All millisecond timestamps are uint32_t; the C code only subtracts them,
  which is modelled by usub32 (modular subtraction on 32-bit values).
- clicks is uint8_t: the increment is taken mod 2 ^ 256 ... mod 256.
- The level-getter function pointer (get_state / get_state_ctx) is modelled
  as an explicit argument (f : Nat -> Bool) to the step functions: the i-th
  call made during one step returns f i, true meaning the pressed level 1.
- The event callback pointer is modelled by the flag has_callback together
  with the list of (event, data) callback invocations that button_step
  returns; the C code passes btn and callback_ctx through unchanged, which
  carries no information in a pure model.
- NULL pointers are modelled with Option: button_step and button_set_param
  take Option arguments mirroring the C NULL checks.
- The header libmcu/button.h is not part of the sources; the enum values of
  button_event_t / button_error_t and the five fields of struct button_param
  are modelled from the spec (section 3 and 6), which lists them explicitly.
-/

/-- Modular 32-bit subtraction: the value of (a - b) on uint32_t operands. -/
def usub32 (a b : Nat) : Nat :=
  (a % 2 ^ 32 + (2 ^ 32 - b % 2 ^ 32)) % 2 ^ 32

/-- ParamBlock, struct button_param: all five durations in milliseconds.
Modelled from the spec: the header declaring the struct is not in src,
so the exact C integer widths are unknown and the fields are naturals;
button.c only divides and compares them, which is width-independent. -/
structure button_param where
  sampling_interval_ms : Nat
  min_press_time_ms : Nat
  repeat_delay_ms : Nat
  repeat_rate_ms : Nat
  click_window_ms : Nat
deriving DecidableEq, Repr

/-- struct button_data (button.c lines 45-51). clicks is uint8_t. -/
structure button_data where
  waveform : Nat
  time_pressed : Nat
  time_released : Nat
  time_repeat : Nat
  clicks : Nat
deriving DecidableEq, Repr

/-- struct button (button.c lines 53-67), omitting the four C function or
context pointers: the level getter becomes an argument of the step
functions and the event callback is reduced to has_callback (whether
btn->callback is non-NULL). -/
structure button where
  data : button_data
  param : button_param
  has_callback : Bool
  timestamp : Nat
  allocated : Bool
  active : Bool
  pressed : Bool
deriving DecidableEq, Repr

/-- button_event_t. Modelled from the spec: the header is not in src; the
spec (section 6) lists events PRESSED, RELEASED, HOLDING, CLICK plus the
none value used by process_button. -/
inductive button_event where
  | BUTTON_EVT_NONE
  | BUTTON_EVT_PRESSED
  | BUTTON_EVT_RELEASED
  | BUTTON_EVT_HOLDING
  | BUTTON_EVT_CLICK
deriving DecidableEq, Repr

export button_event (BUTTON_EVT_NONE BUTTON_EVT_PRESSED BUTTON_EVT_RELEASED
  BUTTON_EVT_HOLDING BUTTON_EVT_CLICK)

/-- button_error_t. Modelled from the spec: the header is not in src; the
spec (section 6) gives the taxonomy OK, INVALID_PARAM, INCORRECT_PARAM,
DISABLED. BUTTON_ERROR_NONE is the OK value. -/
inductive button_error where
  | BUTTON_ERROR_NONE
  | BUTTON_ERROR_INVALID_PARAM
  | BUTTON_ERROR_INCORRECT_PARAM
  | BUTTON_ERROR_DISABLED
deriving DecidableEq, Repr

export button_error (BUTTON_ERROR_NONE BUTTON_ERROR_INVALID_PARAM
  BUTTON_ERROR_INCORRECT_PARAM BUTTON_ERROR_DISABLED)

/-- button_state_t enum values (button.c lines 34-41). -/
def STATE_IDLE : Nat := 0x00
def STATE_PRESSED : Nat := 0x01
def STATE_RELEASED : Nat := 0x02
def STATE_DOWN : Nat := 0x04
def STATE_UP : Nat := 0x08
def STATE_DEBOUNCING : Nat := 0x10

/-- Compile-time defaults (button.c lines 16-30). -/
def BUTTON_SAMPLING_INTERVAL_MS : Nat := 10
def BUTTON_MIN_PRESS_TIME_MS : Nat := 60
def BUTTON_REPEAT_DELAY_MS : Nat := 300
def BUTTON_REPEAT_RATE_MS : Nat := 200
def BUTTON_CLICK_WINDOW_MS : Nat := 500

/-- get_default_param (button.c lines 87-96). -/
def get_default_param : button_param :=
  { sampling_interval_ms := BUTTON_SAMPLING_INTERVAL_MS
    min_press_time_ms := BUTTON_MIN_PRESS_TIME_MS
    repeat_delay_ms := BUTTON_REPEAT_DELAY_MS
    repeat_rate_ms := BUTTON_REPEAT_RATE_MS
    click_window_ms := BUTTON_CLICK_WINDOW_MS }

/-- get_min_pressed_pulse_count (button.c lines 98-101); the C function
returns uint16_t, hence the mod 2 ^ 16. -/
def get_min_pressed_pulse_count (btn : button) : Nat :=
  (btn.param.min_press_time_ms / btn.param.sampling_interval_ms) % 2 ^ 16

/-- get_min_pressed_waveform (button.c lines 103-106): 1U << count on a
32-bit waveform_t. -/
def get_min_pressed_waveform (btn : button) : Nat :=
  (1 <<< get_min_pressed_pulse_count btn) % 2 ^ 32

/-- get_waveform_debouncing_mask (button.c lines 108-111):
(1U << count) - 1. -/
def get_waveform_debouncing_mask (btn : button) : Nat :=
  usub32 (get_min_pressed_waveform btn) 1

/-- get_waveform_mask (button.c lines 113-116): (1U << (count + 1)) - 1. -/
def get_waveform_mask (btn : button) : Nat :=
  usub32 ((1 <<< (get_min_pressed_pulse_count btn + 1)) % 2 ^ 32) 1

/-- get_waveform (button.c lines 118-121). -/
def get_waveform (btn : button) : Nat :=
  btn.data.waveform &&& get_waveform_mask btn

/-- update_waveform (button.c lines 123-127): shift left by one and or in
the sampled level, on uint32_t. -/
def update_waveform (waveform : Nat) (pressed : Bool) : Nat :=
  ((waveform <<< 1) ||| (if pressed then 1 else 0)) % 2 ^ 32

/-- is_param_ok (button.c lines 129-148). The pulse-count bound is
sizeof(waveform_t) * 8 - 2 = 30. -/
def is_param_ok (param : button_param) (min_pulse_count : Nat) : Bool :=
  if param.sampling_interval_ms == 0 || param.repeat_delay_ms == 0 ||
      param.repeat_rate_ms == 0 || param.click_window_ms == 0 then
    false
  else if param.min_press_time_ms < param.sampling_interval_ms then
    false
  else if 30 ≤ min_pulse_count then
    false
  else
    true

/-- is_button_pressed (button.c lines 150-160). -/
def is_button_pressed (btn : button) : Bool :=
  if btn.pressed then
    false
  else
    (get_waveform btn &&& get_waveform_debouncing_mask btn) ==
      usub32 (get_min_pressed_waveform btn) 1

/-- is_button_released (button.c lines 162-171). -/
def is_button_released (btn : button) : Bool :=
  if !btn.pressed then
    false
  else
    get_waveform btn == get_min_pressed_waveform btn

/-- is_button_up (button.c lines 173-177). -/
def is_button_up (btn : button) : Bool :=
  (get_waveform btn &&& get_waveform_debouncing_mask btn) == 0

/-- is_button_down (button.c lines 179-183). -/
def is_button_down (btn : button) : Bool :=
  (get_waveform btn &&& get_waveform_debouncing_mask btn) ==
    get_waveform_debouncing_mask btn

/-- is_click_window_closed (button.c lines 185-189), with the uint32_t
subtraction made explicit. -/
def is_click_window_closed (btn : button) (time_ms : Nat) : Bool :=
  btn.param.click_window_ms ≤ usub32 time_ms btn.data.time_released

/-- The sampling loop inside update_state (button.c lines 196-200): shift
n fresh samples into w, the call number i giving sample f i. -/
def shift_in (f : Nat → Bool) (w : Nat) (i : Nat) : Nat → Nat
  | 0 => w
  | Nat.succ n => shift_in f (update_waveform w (f i)) (i + 1) n

/-- update_state (button.c lines 192-203): mutates btn->data.waveform by
shifting in pulses samples read from the level getter f. -/
def update_state (btn : button) (pulses : Nat) (f : Nat → Bool) : button :=
  { btn with data := { btn.data with
      waveform := shift_in f btn.data.waveform 0 pulses } }

/-- process_pressed (button.c lines 205-210). -/
def process_pressed (btn : button) (time_ms : Nat) : button :=
  { btn with
      data := { btn.data with time_pressed := time_ms }
      pressed := true }

/-- process_released (button.c lines 212-219); clicks is uint8_t so the
increment wraps mod 256. -/
def process_released (btn : button) (time_ms : Nat) : button :=
  { btn with
      data := { btn.data with
        time_released := time_ms
        clicks := (btn.data.clicks + 1) % 256
        time_repeat := 0 }
      pressed := false }

/-- process_holding (button.c lines 221-242): returns whether HOLDING
fires together with the updated button. -/
def process_holding (btn : button) (time_ms : Nat) : Bool × button :=
  let state_updated :=
    if btn.data.time_repeat ≠ 0 then
      btn.param.repeat_rate_ms ≤ usub32 time_ms btn.data.time_repeat
    else
      btn.param.repeat_delay_ms ≤ usub32 time_ms btn.data.time_pressed
  if state_updated then
    (true, { btn with data := { btn.data with time_repeat := time_ms } })
  else
    (false, btn)

/-- The activity mask of process_button (button.c lines 246-247):
STATE_PRESSED | STATE_DOWN | STATE_DEBOUNCING. -/
def activity_mask : Nat := STATE_PRESSED ||| STATE_DOWN ||| STATE_DEBOUNCING

/-- The classification if-chain of process_button (button.c lines 259-276),
applied to the button after update_state ran: yields the event, the
button_state_t value assigned to the local variable state, and the button
after the per-transition bookkeeping. -/
def classify (btn : button) (time_ms : Nat) : button_event × Nat × button :=
  if is_button_pressed btn then
    (BUTTON_EVT_PRESSED, STATE_PRESSED, process_pressed btn time_ms)
  else if is_button_released btn then
    (BUTTON_EVT_RELEASED, STATE_RELEASED, process_released btn time_ms)
  else if is_button_down btn then
    ((if (process_holding btn time_ms).1 then BUTTON_EVT_HOLDING
      else BUTTON_EVT_NONE),
     STATE_DOWN, (process_holding btn time_ms).2)
  else if is_button_up btn then
    (BUTTON_EVT_NONE, STATE_UP, btn)
  else if get_waveform btn ≠ 0 then
    (BUTTON_EVT_NONE, STATE_DEBOUNCING, btn)
  else
    (BUTTON_EVT_NONE, STATE_IDLE, btn)

/-- The tail of process_button (button.c lines 278-284): the click-window
reset guarded by the activity mask, then the timestamp update. -/
def finalize (r : button_event × Nat × button) (time_ms : Nat) :
    button_event × Nat × button :=
  let btn2 := r.2.2
  let btn3 :=
    if (r.2.1 &&& activity_mask == 0) && is_click_window_closed btn2 time_ms
    then { btn2 with data := { btn2.data with clicks := 0 } }
    else btn2
  (r.1, r.2.1, { btn3 with timestamp := time_ms })

/-- process_button (button.c lines 244-285), factored as classify followed
by finalize; also returns the final value of the local state variable.
When pulses is zero the function returns immediately (goto out) with
state still STATE_IDLE and the button untouched. -/
def process_button (btn : button) (time_ms : Nat) (f : Nat → Bool) :
    button_event × Nat × button :=
  let elapsed_ms := usub32 time_ms btn.timestamp
  let pulses := elapsed_ms / btn.param.sampling_interval_ms
  if pulses = 0 then
    (BUTTON_EVT_NONE, STATE_IDLE, btn)
  else
    finalize (classify (update_state btn pulses f) time_ms) time_ms

/-- button_step (button.c lines 287-309). The Option models the NULL
check; the returned list is the sequence of (event, data) callback
invocations, empty when btn->callback is NULL. -/
def button_step (obtn : Option button) (time_ms : Nat) (f : Nat → Bool) :
    button_error × Option button × List (button_event × Nat) :=
  match obtn with
  | none => (BUTTON_ERROR_INVALID_PARAM, none, [])
  | some btn =>
    if !btn.active then
      (BUTTON_ERROR_DISABLED, some btn, [])
    else
      let r := process_button btn time_ms f
      let event := r.1
      let b2 := r.2.2
      let emits :=
        if event ≠ BUTTON_EVT_NONE ∧ b2.has_callback then
          (event, 0) ::
            (if event = BUTTON_EVT_RELEASED then
              [(BUTTON_EVT_CLICK, b2.data.clicks)]
            else [])
        else []
      (BUTTON_ERROR_NONE, some b2, emits)

/-- button_set_param (button.c lines 311-324). -/
def button_set_param (obtn : Option button) (oparam : Option button_param) :
    button_error × Option button :=
  match obtn, oparam with
  | none, _ => (BUTTON_ERROR_INVALID_PARAM, obtn)
  | some _, none => (BUTTON_ERROR_INVALID_PARAM, obtn)
  | some btn, some param =>
    if is_param_ok param (get_min_pressed_pulse_count btn) = false then
      (BUTTON_ERROR_INCORRECT_PARAM, some btn)
    else
      (BUTTON_ERROR_NONE, some { btn with param := param })

/-- button_new (button.c lines 362-385) on a fresh zeroed pool slot: the
static array is zero-initialized and free_button zeroes a slot on delete,
so an allocation always starts from the all-zero struct; new_button sets
allocated, button_new installs the callbacks and the default parameters.
The pool scan, the lock and the function pointers themselves are not
modelled; has_cb records whether a non-NULL event callback was passed. -/
def button_new (has_cb : Bool) : button :=
  { data := { waveform := 0, time_pressed := 0, time_released := 0,
              time_repeat := 0, clicks := 0 }
    param := get_default_param
    has_callback := has_cb
    timestamp := 0
    allocated := true
    active := false
    pressed := false }

/-- button_enable (button.c lines 342-350). -/
def button_enable (obtn : Option button) : button_error × Option button :=
  match obtn with
  | none => (BUTTON_ERROR_INVALID_PARAM, none)
  | some btn => (BUTTON_ERROR_NONE, some { btn with active := true })

/-- button_disable (button.c lines 352-360). -/
def button_disable (obtn : Option button) : button_error × Option button :=
  match obtn with
  | none => (BUTTON_ERROR_INVALID_PARAM, none)
  | some btn => (BUTTON_ERROR_NONE, some { btn with active := false })

/-- button_busy (button.c lines 337-340). -/
def button_busy (btn : button) : Bool :=
  !is_button_up btn

/-! Basic arithmetic facts about the 32-bit helpers. -/

theorem usub32_self (t : Nat) : usub32 t t = 0 := by
  unfold usub32
  have h : t % 2 ^ 32 < 2 ^ 32 := Nat.mod_lt _ (by norm_num)
  have h2 : t % 2 ^ 32 + (2 ^ 32 - t % 2 ^ 32) = 2 ^ 32 := by omega
  rw [h2]
  simp

theorem usub32_two_pow_one {n : Nat} (h : n < 32) : usub32 (2 ^ n) 1 = 2 ^ n - 1 := by
  unfold usub32
  have h1 : 1 ≤ 2 ^ n := Nat.one_le_two_pow
  have h2 : 2 ^ n < 2 ^ 32 := Nat.pow_lt_pow_right (by norm_num) h
  have h3 : (1 : Nat) % 2 ^ 32 = 1 := by norm_num
  have h4 : 2 ^ n % 2 ^ 32 = 2 ^ n := Nat.mod_eq_of_lt h2
  rw [h3, h4]
  have h5 : 2 ^ n + (2 ^ 32 - 1) = 2 ^ 32 + (2 ^ n - 1) := by omega
  rw [h5, Nat.add_mod_left]
  exact Nat.mod_eq_of_lt (by omega)

theorem shiftLeft_one_mod {n : Nat} (h : n < 32) :
    (1 <<< n) % 2 ^ 32 = 2 ^ n := by
  rw [Nat.one_shiftLeft]
  exact Nat.mod_eq_of_lt (Nat.pow_lt_pow_right (by norm_num) h)

/-! The masked views of the waveform, under the in-range pulse-count bound
that is_param_ok enforces (pulse count below 30). -/

theorem get_min_pressed_waveform_eq {btn : button}
    (h : get_min_pressed_pulse_count btn < 30) :
    get_min_pressed_waveform btn = 2 ^ get_min_pressed_pulse_count btn := by
  unfold get_min_pressed_waveform
  exact shiftLeft_one_mod (by omega)

theorem get_waveform_debouncing_mask_eq {btn : button}
    (h : get_min_pressed_pulse_count btn < 30) :
    get_waveform_debouncing_mask btn = 2 ^ get_min_pressed_pulse_count btn - 1 := by
  unfold get_waveform_debouncing_mask
  rw [get_min_pressed_waveform_eq h]
  exact usub32_two_pow_one (by omega)

theorem get_waveform_mask_eq {btn : button}
    (h : get_min_pressed_pulse_count btn < 30) :
    get_waveform_mask btn = 2 ^ (get_min_pressed_pulse_count btn + 1) - 1 := by
  unfold get_waveform_mask
  rw [shiftLeft_one_mod (by omega)]
  exact usub32_two_pow_one (by omega)

theorem get_waveform_eq_mod {btn : button}
    (h : get_min_pressed_pulse_count btn < 30) :
    get_waveform btn = btn.data.waveform % 2 ^ (get_min_pressed_pulse_count btn + 1) := by
  rw [get_waveform, get_waveform_mask_eq h, Nat.and_pow_two_sub_one_eq_mod]

theorem get_waveform_and_dmask {btn : button}
    (h : get_min_pressed_pulse_count btn < 30) :
    get_waveform btn &&& get_waveform_debouncing_mask btn =
      btn.data.waveform % 2 ^ get_min_pressed_pulse_count btn := by
  rw [get_waveform_eq_mod h, get_waveform_debouncing_mask_eq h,
    Nat.and_pow_two_sub_one_eq_mod]
  exact Nat.mod_mod_of_dvd _ (pow_dvd_pow 2 (Nat.le_succ _))

/-! Characterizations of the classification predicates. -/

theorem is_button_pressed_iff {btn : button}
    (h : get_min_pressed_pulse_count btn < 30) :
    is_button_pressed btn = true ↔
      btn.pressed = false ∧
      btn.data.waveform &&& (2 ^ get_min_pressed_pulse_count btn - 1) =
        2 ^ get_min_pressed_pulse_count btn - 1 := by
  have hA := get_waveform_and_dmask h
  have hB : usub32 (get_min_pressed_waveform btn) 1 =
      2 ^ get_min_pressed_pulse_count btn - 1 := by
    rw [get_min_pressed_waveform_eq h]
    exact usub32_two_pow_one (by omega)
  cases hb : btn.pressed <;>
    simp [is_button_pressed, hb, hA, hB, Nat.and_pow_two_sub_one_eq_mod]

theorem is_button_released_iff {btn : button}
    (h : get_min_pressed_pulse_count btn < 30) :
    is_button_released btn = true ↔
      btn.pressed = true ∧
      btn.data.waveform &&& (2 ^ (get_min_pressed_pulse_count btn + 1) - 1) =
        2 ^ get_min_pressed_pulse_count btn := by
  have hA := get_waveform_eq_mod h
  have hB := get_min_pressed_waveform_eq h
  cases hb : btn.pressed <;>
    simp [is_button_released, hb, hA, hB, Nat.and_pow_two_sub_one_eq_mod]

theorem is_button_pressed_of_pressed {btn : button} (h : btn.pressed = true) :
    is_button_pressed btn = false := by
  simp [is_button_pressed, h]

/-! Structural lemmas about update_state, classify, finalize and
process_button. -/

theorem update_state_param (btn : button) (p : Nat) (f : Nat → Bool) :
    (update_state btn p f).param = btn.param := rfl

theorem update_state_pressed (btn : button) (p : Nat) (f : Nat → Bool) :
    (update_state btn p f).pressed = btn.pressed := rfl

theorem update_state_pulse_count (btn : button) (p : Nat) (f : Nat → Bool) :
    get_min_pressed_pulse_count (update_state btn p f) =
      get_min_pressed_pulse_count btn := rfl

theorem classify_fst_pressed (b : button) (t : Nat) :
    (classify b t).1 = BUTTON_EVT_PRESSED ↔ is_button_pressed b = true := by
  unfold classify
  by_cases h1 : is_button_pressed b
  · simp [h1]
  · by_cases h2 : is_button_released b
    · simp [h1, h2]
    · by_cases h3 : is_button_down b
      · by_cases h4 : (process_holding b t).1 <;> simp [h1, h2, h3, h4]
      · by_cases h5 : is_button_up b
        · simp [h1, h2, h3, h5]
        · by_cases h6 : get_waveform b ≠ 0 <;> simp [h1, h2, h3, h5, h6]

theorem classify_fst_released (b : button) (t : Nat) :
    (classify b t).1 = BUTTON_EVT_RELEASED ↔
      is_button_pressed b = false ∧ is_button_released b = true := by
  unfold classify
  by_cases h1 : is_button_pressed b
  · simp [h1]
  · by_cases h2 : is_button_released b
    · simp [h1, h2]
    · by_cases h3 : is_button_down b
      · by_cases h4 : (process_holding b t).1 <;> simp [h1, h2, h3, h4]
      · by_cases h5 : is_button_up b
        · simp [h1, h2, h3, h5]
        · by_cases h6 : get_waveform b ≠ 0 <;> simp [h1, h2, h3, h5, h6]

theorem classify_fst_ne_click (b : button) (t : Nat) :
    (classify b t).1 ≠ BUTTON_EVT_CLICK := by
  unfold classify
  by_cases h1 : is_button_pressed b
  · simp [h1]
  · by_cases h2 : is_button_released b
    · simp [h1, h2]
    · by_cases h3 : is_button_down b
      · by_cases h4 : (process_holding b t).1 <;> simp [h1, h2, h3, h4]
      · by_cases h5 : is_button_up b
        · simp [h1, h2, h3, h5]
        · by_cases h6 : get_waveform b ≠ 0 <;> simp [h1, h2, h3, h5, h6]

theorem classify_snd_down (b : button) (t : Nat) :
    (classify b t).2.1 = STATE_DOWN ↔
      is_button_pressed b = false ∧ is_button_released b = false ∧
        is_button_down b = true := by
  unfold classify
  by_cases h1 : is_button_pressed b
  · simp [h1, STATE_PRESSED, STATE_DOWN]
  · by_cases h2 : is_button_released b
    · simp [h1, h2, STATE_RELEASED, STATE_DOWN]
    · by_cases h3 : is_button_down b
      · by_cases h4 : (process_holding b t).1 <;> simp [h1, h2, h3, h4]
      · by_cases h5 : is_button_up b
        · simp [h1, h2, h3, h5, STATE_UP, STATE_DOWN]
        · by_cases h6 : get_waveform b ≠ 0 <;>
            simp [h1, h2, h3, h5, h6, STATE_DEBOUNCING, STATE_DOWN, STATE_IDLE]

theorem classify_of_down {b : button} (t : Nat)
    (h1 : is_button_pressed b = false) (h2 : is_button_released b = false)
    (h3 : is_button_down b = true) :
    classify b t =
      ((if (process_holding b t).1 then BUTTON_EVT_HOLDING else BUTTON_EVT_NONE),
        STATE_DOWN, (process_holding b t).2) := by
  simp [classify, h1, h2, h3]

theorem classify_of_released {b : button} (t : Nat)
    (h1 : is_button_pressed b = false) (h2 : is_button_released b = true) :
    classify b t = (BUTTON_EVT_RELEASED, STATE_RELEASED, process_released b t) := by
  simp [classify, h1, h2]

theorem finalize_fst (r : button_event × Nat × button) (t : Nat) :
    (finalize r t).1 = r.1 := rfl

theorem finalize_snd_fst (r : button_event × Nat × button) (t : Nat) :
    (finalize r t).2.1 = r.2.1 := rfl

theorem process_button_of_pulses_zero {btn : button} {t : Nat} (f : Nat → Bool)
    (hp : usub32 t btn.timestamp / btn.param.sampling_interval_ms = 0) :
    process_button btn t f = (BUTTON_EVT_NONE, STATE_IDLE, btn) := by
  simp only [process_button]
  rw [if_pos hp]

theorem process_button_of_pulses_ne {btn : button} {t : Nat} (f : Nat → Bool)
    (hp : usub32 t btn.timestamp / btn.param.sampling_interval_ms ≠ 0) :
    process_button btn t f =
      finalize
        (classify
          (update_state btn
            (usub32 t btn.timestamp / btn.param.sampling_interval_ms) f) t) t := by
  simp only [process_button]
  rw [if_neg hp]

theorem process_holding_fst (b : button) (t : Nat) :
    (process_holding b t).1 = true ↔
      (b.data.time_repeat = 0 ∧
        b.param.repeat_delay_ms ≤ usub32 t b.data.time_pressed) ∨
      (b.data.time_repeat ≠ 0 ∧
        b.param.repeat_rate_ms ≤ usub32 t b.data.time_repeat) := by
  unfold process_holding
  by_cases h0 : b.data.time_repeat ≠ 0
  · by_cases hr : b.param.repeat_rate_ms ≤ usub32 t b.data.time_repeat <;>
      simp [h0, hr]
  · push_neg at h0
    by_cases hd : b.param.repeat_delay_ms ≤ usub32 t b.data.time_pressed <;>
      simp [h0, hd]

theorem process_holding_snd_time_repeat (b : button) (t : Nat) :
    (process_holding b t).2.data.time_repeat =
      if (process_holding b t).1 then t else b.data.time_repeat := by
  unfold process_holding
  by_cases h0 : b.data.time_repeat ≠ 0
  · by_cases hr : b.param.repeat_rate_ms ≤ usub32 t b.data.time_repeat <;>
      simp [h0, hr]
  · by_cases hd : b.param.repeat_delay_ms ≤ usub32 t b.data.time_pressed <;>
      simp [h0, hd]

/-- button_step on an active instance, with the callback-invocation list
written out. -/
theorem button_step_some (btn : button) (t : Nat) (f : Nat → Bool)
    (hact : btn.active = true) :
    button_step (some btn) t f =
      (BUTTON_ERROR_NONE, some (process_button btn t f).2.2,
        if (process_button btn t f).1 ≠ BUTTON_EVT_NONE ∧
            (process_button btn t f).2.2.has_callback then
          ((process_button btn t f).1, 0) ::
            (if (process_button btn t f).1 = BUTTON_EVT_RELEASED then
              [(BUTTON_EVT_CLICK, (process_button btn t f).2.2.data.clicks)]
            else [])
        else []) := by
  simp [button_step, hact]

/-! Concrete instances used by the witnesses below. -/

def btnA : button := { button_new true with active := true }

def fDown : Nat → Bool := fun _ => true

def fUp : Nat → Bool := fun _ => false

/-- Claim C6: for an enabled instance, when the elapsed time divided by the
sampling interval is zero pulses, step returns OK, emits no event and
leaves the instance completely unchanged. -/
theorem step_noop_when_no_pulse (btn : button) (t : Nat) (f : Nat → Bool)
    (hact : btn.active = true)
    (hp : usub32 t btn.timestamp / btn.param.sampling_interval_ms = 0) :
    button_step (some btn) t f = (BUTTON_ERROR_NONE, some btn, []) := by
  simp [button_step, hact, process_button_of_pulses_zero f hp]

/-- Witness for claim C6 at a concrete input: 5 ms after the last step with
a 10 ms sampling interval, nothing happens. -/
theorem step_noop_when_no_pulse_witness :
    btnA.active = true ∧
    usub32 5 btnA.timestamp / btnA.param.sampling_interval_ms = 0 ∧
    button_step (some btnA) 5 fDown = (BUTTON_ERROR_NONE, some btnA, []) :=
  ⟨rfl, by decide, step_noop_when_no_pulse btnA 5 fDown rfl (by decide)⟩

/-- Claim C7: button_step returns INVALID_PARAM exactly on a NULL instance,
DISABLED exactly on an inactive instance, OK otherwise, and in the two
error cases the instance is unmodified and no callback is invoked. -/
theorem step_error_taxonomy (ob : Option button) (t : Nat) (f : Nat → Bool) :
    ((button_step ob t f).1 = BUTTON_ERROR_INVALID_PARAM ↔ ob = none) ∧
    ((button_step ob t f).1 = BUTTON_ERROR_DISABLED ↔
      ∃ b, ob = some b ∧ b.active = false) ∧
    ((button_step ob t f).1 = BUTTON_ERROR_NONE ↔
      ∃ b, ob = some b ∧ b.active = true) ∧
    ((button_step ob t f).1 ≠ BUTTON_ERROR_NONE →
      (button_step ob t f).2.1 = ob ∧ (button_step ob t f).2.2 = []) := by
  cases ob with
  | none => simp [button_step]
  | some b =>
    cases hb : b.active <;> simp [button_step, hb]

/-- Witness for claim C7 at concrete inputs: the NULL case and the
inactive case. -/
theorem step_error_taxonomy_witness :
    (button_step none 0 fUp).1 = BUTTON_ERROR_INVALID_PARAM ∧
    (button_step (some (button_new true)) 0 fUp).1 = BUTTON_ERROR_DISABLED := by
  have h1 := step_error_taxonomy none 0 fUp
  have h2 := step_error_taxonomy (some (button_new true)) 0 fUp
  exact ⟨h1.1.mpr rfl, h2.2.1.mpr ⟨button_new true, rfl, rfl⟩⟩

/-- Claim C8: button_set_param returns INVALID_PARAM on a NULL instance or
NULL param pointer without modifying anything, INCORRECT_PARAM on failed
validation leaving the instance exactly as before, and on success copies
the whole candidate block into the instance and returns OK. -/
theorem set_param_contract (ob : Option button) (op : Option button_param) :
    (ob = none ∨ op = none →
      button_set_param ob op = (BUTTON_ERROR_INVALID_PARAM, ob)) ∧
    (∀ b p, ob = some b → op = some p →
      (is_param_ok p (get_min_pressed_pulse_count b) = false →
        button_set_param ob op = (BUTTON_ERROR_INCORRECT_PARAM, some b)) ∧
      (is_param_ok p (get_min_pressed_pulse_count b) = true →
        button_set_param ob op = (BUTTON_ERROR_NONE, some { b with param := p }))) := by
  constructor
  · rintro (rfl | rfl)
    · rfl
    · cases ob with
      | none => rfl
      | some b => rfl
  · rintro b p rfl rfl
    constructor
    · intro hbad
      simp [button_set_param, hbad]
    · intro hok
      simp [button_set_param, hok]

/-- Witness for claim C8 at concrete inputs: a zero sampling interval is
rejected with the instance unchanged, and a NULL param pointer gives
INVALID_PARAM. -/
theorem set_param_contract_witness :
    button_set_param (some (button_new false))
        (some { sampling_interval_ms := 0, min_press_time_ms := 60,
                repeat_delay_ms := 300, repeat_rate_ms := 200,
                click_window_ms := 500 }) =
      (BUTTON_ERROR_INCORRECT_PARAM, some (button_new false)) ∧
    button_set_param (some (button_new false)) none =
      (BUTTON_ERROR_INVALID_PARAM, some (button_new false)) := by
  have h := set_param_contract (some (button_new false))
    (some { sampling_interval_ms := 0, min_press_time_ms := 60,
            repeat_delay_ms := 300, repeat_rate_ms := 200,
            click_window_ms := 500 })
  have h2 := set_param_contract (some (button_new false)) none
  exact ⟨(h.2 (button_new false) _ rfl rfl).1 (by decide), h2.1 (Or.inr rfl)⟩

/-- Claim C9: a freshly allocated instance starts with active set false,
and stepping any inactive instance returns DISABLED while leaving the
instance untouched and invoking no callback; hence every step before the
first enable is a DISABLED no-op. -/
theorem new_button_starts_disabled (cb : Bool) (t : Nat) (f : Nat → Bool)
    (btn : button) :
    (button_new cb).active = false ∧
    (btn.active = false →
      button_step (some btn) t f = (BUTTON_ERROR_DISABLED, some btn, [])) := by
  refine ⟨rfl, fun h => ?_⟩
  simp [button_step, h]

/-- Witness for claim C9 at a concrete input: a fresh instance stepped at
100 ms is rejected with DISABLED. -/
theorem new_button_starts_disabled_witness :
    (button_new true).active = false ∧
    button_step (some (button_new true)) 100 fDown =
      (BUTTON_ERROR_DISABLED, some (button_new true), []) := by
  have h := new_button_starts_disabled true 100 fDown (button_new true)
  exact ⟨h.1, h.2 h.1⟩

/-- The candidate parameter block exhibiting the claim C2 bug: its derived
pulse count is 60000 / 1 = 60000, far above the bound of 30. -/
def c2_candidate : button_param :=
  { sampling_interval_ms := 1, min_press_time_ms := 60000,
    repeat_delay_ms := 1, repeat_rate_ms := 1, click_window_ms := 1 }

/-- Claim C2 (evidence of the code bug): the candidate block derives pulse
count 60000 and fails is_param_ok on its own pulse count, yet
button_set_param on a freshly created instance (default parameters, pulse
count 6) accepts and installs it with OK, because button.c line 318 hands
is_param_ok the pulse count of the currently installed parameters rather
than the candidate's. -/
theorem set_param_accepts_oversized_candidate :
    c2_candidate.min_press_time_ms / c2_candidate.sampling_interval_ms = 60000 ∧
    is_param_ok c2_candidate
      (c2_candidate.min_press_time_ms / c2_candidate.sampling_interval_ms % 2 ^ 16) =
      false ∧
    get_min_pressed_pulse_count (button_new true) = 6 ∧
    button_set_param (some (button_new true)) (some c2_candidate) =
      (BUTTON_ERROR_NONE, some { button_new true with param := c2_candidate }) := by
  refine ⟨rfl, by decide, by decide, by decide⟩

/-- Claim C1: for an instance stepped with at least one elapsed sampling
interval, after the fresh samples are shifted in the step classifies
PRESSED exactly when the pressed latch is false and the low N bits of the
waveform are all 1, and RELEASED exactly when the latch is true and the
waveform under the low (N+1)-bit mask equals 2 ^ N, where N is the
qualified-press pulse count (assumed inside the bound that is_param_ok
enforces). -/
theorem press_release_classification (btn : button) (t : Nat) (f : Nat → Bool)
    (hN : get_min_pressed_pulse_count btn < 30)
    (hp : usub32 t btn.timestamp / btn.param.sampling_interval_ms ≠ 0) :
    ((process_button btn t f).1 = BUTTON_EVT_PRESSED ↔
      btn.pressed = false ∧
      (update_state btn (usub32 t btn.timestamp / btn.param.sampling_interval_ms)
          f).data.waveform &&& (2 ^ get_min_pressed_pulse_count btn - 1) =
        2 ^ get_min_pressed_pulse_count btn - 1) ∧
    ((process_button btn t f).1 = BUTTON_EVT_RELEASED ↔
      btn.pressed = true ∧
      (update_state btn (usub32 t btn.timestamp / btn.param.sampling_interval_ms)
          f).data.waveform &&& (2 ^ (get_min_pressed_pulse_count btn + 1) - 1) =
        2 ^ get_min_pressed_pulse_count btn) := by
  rw [process_button_of_pulses_ne f hp]
  set b1 := update_state btn
    (usub32 t btn.timestamp / btn.param.sampling_interval_ms) f with hb1
  have hN1 : get_min_pressed_pulse_count b1 < 30 := hN
  have hpr : b1.pressed = btn.pressed := rfl
  constructor
  · rw [finalize_fst, classify_fst_pressed]
    have h1 := is_button_pressed_iff hN1
    rw [hpr] at h1
    exact h1
  · rw [finalize_fst, classify_fst_released]
    have h2 := is_button_released_iff hN1
    rw [hpr] at h2
    constructor
    · rintro ⟨_, hr1⟩
      exact h2.mp hr1
    · rintro ⟨hprt, hw⟩
      have hb1p : b1.pressed = true := by rw [hpr]; exact hprt
      exact ⟨is_button_pressed_of_pressed hb1p, h2.mpr ⟨hprt, hw⟩⟩

/-- Witness for claim C1 at a concrete input: the default instance held
down for six samples classifies PRESSED. -/
theorem press_release_classification_witness :
    get_min_pressed_pulse_count btnA < 30 ∧
    usub32 60 btnA.timestamp / btnA.param.sampling_interval_ms ≠ 0 ∧
    (((process_button btnA 60 fDown).1 = BUTTON_EVT_PRESSED ↔
      btnA.pressed = false ∧
      (update_state btnA (usub32 60 btnA.timestamp / btnA.param.sampling_interval_ms)
          fDown).data.waveform &&& (2 ^ get_min_pressed_pulse_count btnA - 1) =
        2 ^ get_min_pressed_pulse_count btnA - 1) ∧
     ((process_button btnA 60 fDown).1 = BUTTON_EVT_RELEASED ↔
      btnA.pressed = true ∧
      (update_state btnA (usub32 60 btnA.timestamp / btnA.param.sampling_interval_ms)
          fDown).data.waveform &&& (2 ^ (get_min_pressed_pulse_count btnA + 1) - 1) =
        2 ^ get_min_pressed_pulse_count btnA)) :=
  ⟨by decide, by decide,
    press_release_classification btnA 60 fDown (by decide) (by decide)⟩

/-- Evaluating finalize on the STATE_DOWN classification tuple: the state
is in the activity mask, so the click counter is not reset. -/
theorem finalize_down (b2 : button) (e : button_event) (t : Nat) :
    finalize (e, STATE_DOWN, b2) t = (e, STATE_DOWN, { b2 with timestamp := t }) := by
  unfold finalize
  have hmask : ((STATE_DOWN &&& activity_mask == 0) : Bool) = false := by decide
  simp [hmask]

/-- Claim C4: whenever a step classifies DOWN, HOLDING fires exactly when
either no repeat has been issued this press (time_repeat zero) and
now - time_pressed reached repeat_delay_ms, or a repeat was issued and
now - time_repeat reached repeat_rate_ms; and whenever it fires the
repeat bookmark is set to now. -/
theorem holding_repeat_timing (btn : button) (t : Nat) (f : Nat → Bool)
    (hdown : (process_button btn t f).2.1 = STATE_DOWN) :
    ((process_button btn t f).1 = BUTTON_EVT_HOLDING ↔
      (btn.data.time_repeat = 0 ∧
        btn.param.repeat_delay_ms ≤ usub32 t btn.data.time_pressed) ∨
      (btn.data.time_repeat ≠ 0 ∧
        btn.param.repeat_rate_ms ≤ usub32 t btn.data.time_repeat)) ∧
    (((btn.data.time_repeat = 0 ∧
        btn.param.repeat_delay_ms ≤ usub32 t btn.data.time_pressed) ∨
      (btn.data.time_repeat ≠ 0 ∧
        btn.param.repeat_rate_ms ≤ usub32 t btn.data.time_repeat)) →
      (process_button btn t f).2.2.data.time_repeat = t) := by
  have hpne : usub32 t btn.timestamp / btn.param.sampling_interval_ms ≠ 0 := by
    intro h0
    rw [process_button_of_pulses_zero f h0] at hdown
    simp [STATE_IDLE, STATE_DOWN] at hdown
  rw [process_button_of_pulses_ne f hpne] at hdown ⊢
  set b1 := update_state btn
    (usub32 t btn.timestamp / btn.param.sampling_interval_ms) f with hb1
  rw [finalize_snd_fst, classify_snd_down] at hdown
  obtain ⟨h1, h2, h3⟩ := hdown
  rw [classify_of_down t h1 h2 h3, finalize_down]
  have hfst := process_holding_fst b1 t
  constructor
  · by_cases hf : (process_holding b1 t).1
    · rw [if_pos hf]
      exact iff_of_true rfl (hfst.mp hf)
    · rw [if_neg hf]
      exact iff_of_false (by simp) (fun hc => hf (hfst.mpr hc))
  · intro hc
    have hf : (process_holding b1 t).1 = true := hfst.mpr hc
    dsimp only
    rw [process_holding_snd_time_repeat, if_pos hf]

/-- A held-down instance used by the claim C4 witness: latch pressed, six
low waveform bits already 1, press bookmark at 0 ms. -/
def btn4 : button :=
  { btnA with pressed := true, data := { btnA.data with waveform := 127 } }

/-- Witness for claim C4 at a concrete input: held down until 310 ms with
repeat delay 300 and no repeat issued yet, the step classifies DOWN and
fires HOLDING, setting the repeat bookmark to 310. -/
theorem holding_repeat_timing_witness :
    (process_button btn4 310 fDown).2.1 = STATE_DOWN ∧
    (((process_button btn4 310 fDown).1 = BUTTON_EVT_HOLDING ↔
        (btn4.data.time_repeat = 0 ∧
          btn4.param.repeat_delay_ms ≤ usub32 310 btn4.data.time_pressed) ∨
        (btn4.data.time_repeat ≠ 0 ∧
          btn4.param.repeat_rate_ms ≤ usub32 310 btn4.data.time_repeat)) ∧
      (((btn4.data.time_repeat = 0 ∧
          btn4.param.repeat_delay_ms ≤ usub32 310 btn4.data.time_pressed) ∨
        (btn4.data.time_repeat ≠ 0 ∧
          btn4.param.repeat_rate_ms ≤ usub32 310 btn4.data.time_repeat)) →
        (process_button btn4 310 fDown).2.2.data.time_repeat = 310)) :=
  ⟨by decide, holding_repeat_timing btn4 310 fDown (by decide)⟩

/-- process_button never yields the CLICK event itself: CLICK only appears
as the extra callback button_step makes after RELEASED. -/
theorem process_button_ne_click (btn : button) (t : Nat) (f : Nat → Bool) :
    (process_button btn t f).1 ≠ BUTTON_EVT_CLICK := by
  by_cases hp : usub32 t btn.timestamp / btn.param.sampling_interval_ms = 0
  · rw [process_button_of_pulses_zero f hp]
    simp
  · rw [process_button_of_pulses_ne f hp, finalize_fst]
    exact classify_fst_ne_click _ _

/-- The full shape of a step that classifies RELEASED, for a nonzero click
window: the released bookkeeping runs and the click counter is not reset
in the same step (now minus the just-updated release time is 0, below the
window). -/
theorem process_button_released_eq (btn : button) (t : Nat) (f : Nat → Bool)
    (hcw : btn.param.click_window_ms ≠ 0)
    (hrel : (process_button btn t f).1 = BUTTON_EVT_RELEASED) :
    process_button btn t f =
      (BUTTON_EVT_RELEASED, STATE_RELEASED,
        { process_released
            (update_state btn
              (usub32 t btn.timestamp / btn.param.sampling_interval_ms) f) t
          with timestamp := t }) := by
  have hpne : usub32 t btn.timestamp / btn.param.sampling_interval_ms ≠ 0 := by
    intro h0
    rw [process_button_of_pulses_zero f h0] at hrel
    simp at hrel
  rw [process_button_of_pulses_ne f hpne] at hrel ⊢
  set b1 := update_state btn
    (usub32 t btn.timestamp / btn.param.sampling_interval_ms) f with hb1
  rw [finalize_fst, classify_fst_released] at hrel
  obtain ⟨h1, h2⟩ := hrel
  rw [classify_of_released t h1 h2]
  have hmask : ((STATE_RELEASED &&& activity_mask == 0) : Bool) = true := by decide
  have hcw1 : b1.param.click_window_ms ≠ 0 := hcw
  have hicw : is_click_window_closed (process_released b1 t) t = false := by
    simp [is_click_window_closed, process_released, usub32_self, Nat.le_zero, hcw1]
  unfold finalize
  simp [hmask, hicw]

/-- Claim C3: on a step classifying RELEASED with a bound callback, the
callback sequence of that step is exactly RELEASED with data 0 followed
by CLICK carrying the counter incremented in this same step; and CLICK is
only ever delivered right after RELEASED within one step. -/
theorem released_click_pairing (btn : button) (t : Nat) (f : Nat → Bool)
    (hact : btn.active = true) (hcb : btn.has_callback = true)
    (hcw : btn.param.click_window_ms ≠ 0) :
    ((process_button btn t f).1 = BUTTON_EVT_RELEASED →
      (button_step (some btn) t f).2.2 =
        [(BUTTON_EVT_RELEASED, 0),
         (BUTTON_EVT_CLICK, (btn.data.clicks + 1) % 256)]) ∧
    (∀ d, (BUTTON_EVT_CLICK, d) ∈ (button_step (some btn) t f).2.2 →
      (process_button btn t f).1 = BUTTON_EVT_RELEASED ∧
      (button_step (some btn) t f).2.2 =
        [(BUTTON_EVT_RELEASED, 0), (BUTTON_EVT_CLICK, d)]) := by
  have hstep := button_step_some btn t f hact
  constructor
  · intro hrel
    have heq := process_button_released_eq btn t f hcw hrel
    rw [hstep, heq]
    simp [hcb, process_released, update_state]
  · intro d hd
    by_cases hrel : (process_button btn t f).1 = BUTTON_EVT_RELEASED
    · have heq := process_button_released_eq btn t f hcw hrel
      refine ⟨hrel, ?_⟩
      rw [hstep, heq] at hd ⊢
      simp [hcb, process_released, update_state] at hd ⊢
      exact hd.symm
    · exfalso
      rw [hstep] at hd
      by_cases hne : (process_button btn t f).1 ≠ BUTTON_EVT_NONE ∧
          (process_button btn t f).2.2.has_callback
      · rw [if_pos hne, if_neg hrel] at hd
        simp at hd
        exact process_button_ne_click btn t f hd.1.symm
      · rw [if_neg hne] at hd
        simp at hd

/-- A pressed-latched instance one clean up-sample away from the release
sentinel, used by the claim C3 witness. -/
def btn3w : button :=
  { btnA with pressed := true, data := { btnA.data with waveform := 32 } }

/-- Witness for claim C3 at a concrete input: stepping btn3w at 10 ms with
the level up classifies RELEASED and the callback list is exactly
RELEASED then CLICK with count 1. -/
theorem released_click_pairing_witness :
    btn3w.active = true ∧ btn3w.has_callback = true ∧
    btn3w.param.click_window_ms ≠ 0 ∧
    (process_button btn3w 10 fUp).1 = BUTTON_EVT_RELEASED ∧
    (button_step (some btn3w) 10 fUp).2.2 =
      [(BUTTON_EVT_RELEASED, 0),
       (BUTTON_EVT_CLICK, (btn3w.data.clicks + 1) % 256)] := by
  refine ⟨rfl, rfl, by decide, by decide, ?_⟩
  exact (released_click_pairing btn3w 10 fUp rfl rfl (by decide)).1 (by decide)

/-- Claim C10: the click counter is an 8-bit value incremented modulo 256
by the released bookkeeping, so the 256th release without a window reset
wraps it to 0 and the accompanying CLICK callback reports 0. -/
theorem clicks_increment_wraps (btn : button) (t : Nat) (f : Nat → Bool)
    (hact : btn.active = true) (hcb : btn.has_callback = true)
    (hcw : btn.param.click_window_ms ≠ 0)
    (h255 : btn.data.clicks = 255)
    (hrel : (process_button btn t f).1 = BUTTON_EVT_RELEASED) :
    (process_released btn t).data.clicks = (btn.data.clicks + 1) % 256 ∧
    (process_released btn t).data.clicks = 0 ∧
    (button_step (some btn) t f).2.2 =
      [(BUTTON_EVT_RELEASED, 0), (BUTTON_EVT_CLICK, 0)] := by
  refine ⟨rfl, by simp [process_released, h255], ?_⟩
  have heq := process_button_released_eq btn t f hcw hrel
  rw [button_step_some btn t f hact, heq]
  simp [hcb, process_released, update_state, h255]

/-- An instance with the click counter saturated at 255 and a release
pending, used by the claim C10 witness. -/
def btn10 : button :=
  { btnA with
    pressed := true
    data := { btnA.data with waveform := 32, clicks := 255 } }

/-- Witness for claim C10 at a concrete input: the release at 10 ms wraps
the counter from 255 to 0 and the CLICK callback carries 0. -/
theorem clicks_increment_wraps_witness :
    btn10.data.clicks = 255 ∧
    (process_button btn10 10 fUp).1 = BUTTON_EVT_RELEASED ∧
    ((process_released btn10 10).data.clicks = (btn10.data.clicks + 1) % 256 ∧
     (process_released btn10 10).data.clicks = 0 ∧
     (button_step (some btn10) 10 fUp).2.2 =
       [(BUTTON_EVT_RELEASED, 0), (BUTTON_EVT_CLICK, 0)]) :=
  ⟨rfl, by decide,
    clicks_increment_wraps btn10 10 fUp rfl rfl (by decide) rfl (by decide)⟩

/-- process_holding never touches the click counter. -/
theorem process_holding_snd_clicks (b : button) (t : Nat) :
    (process_holding b t).2.data.clicks = b.data.clicks := by
  unfold process_holding
  by_cases h0 : b.data.time_repeat ≠ 0
  · by_cases hr : b.param.repeat_rate_ms ≤ usub32 t b.data.time_repeat <;>
      simp [h0, hr]
  · push_neg at h0
    by_cases hd : b.param.repeat_delay_ms ≤ usub32 t b.data.time_pressed <;>
      simp [h0, hd]

/-- process_holding never touches the release bookmark. -/
theorem process_holding_snd_time_released (b : button) (t : Nat) :
    (process_holding b t).2.data.time_released = b.data.time_released := by
  unfold process_holding
  by_cases h0 : b.data.time_repeat ≠ 0
  · by_cases hr : b.param.repeat_rate_ms ≤ usub32 t b.data.time_repeat <;>
      simp [h0, hr]
  · push_neg at h0
    by_cases hd : b.param.repeat_delay_ms ≤ usub32 t b.data.time_pressed <;>
      simp [h0, hd]

/-- Claim C5: in every step that processes at least one pulse, the click
counter ends at 0 exactly when the resulting state is outside
PRESSED / DOWN / DEBOUNCING and the click window has closed relative to
the (post-transition) release bookmark; otherwise it is unchanged except
for the wrap-around increment a RELEASED transition performs. -/
theorem clicks_window_reset_rule (btn : button) (t : Nat) (f : Nat → Bool)
    (hp : usub32 t btn.timestamp / btn.param.sampling_interval_ms ≠ 0) :
    (process_button btn t f).2.2.data.clicks =
      if ((process_button btn t f).2.1 ≠ STATE_PRESSED ∧
            (process_button btn t f).2.1 ≠ STATE_DOWN ∧
            (process_button btn t f).2.1 ≠ STATE_DEBOUNCING) ∧
          btn.param.click_window_ms ≤
            usub32 t (process_button btn t f).2.2.data.time_released then 0
      else if (process_button btn t f).1 = BUTTON_EVT_RELEASED then
        (btn.data.clicks + 1) % 256
      else btn.data.clicks := by
  rw [process_button_of_pulses_ne f hp]
  set b1 := update_state btn
    (usub32 t btn.timestamp / btn.param.sampling_interval_ms) f with hb1
  have e1 : b1.data.clicks = btn.data.clicks := rfl
  have e2 : b1.data.time_released = btn.data.time_released := rfl
  unfold classify
  by_cases h1 : is_button_pressed b1
  · rw [if_pos h1]
    unfold finalize
    have hm : ¬ (STATE_PRESSED &&& activity_mask = 0) := by decide
    simp [hm, process_pressed, e1]
  · rw [if_neg h1]
    by_cases h2 : is_button_released b1
    · rw [if_pos h2]
      unfold finalize
      have hm : STATE_RELEASED &&& activity_mask = 0 := by decide
      have hs1 : STATE_RELEASED ≠ STATE_PRESSED := by decide
      have hs2 : STATE_RELEASED ≠ STATE_DOWN := by decide
      have hs3 : STATE_RELEASED ≠ STATE_DEBOUNCING := by decide
      have hrc : (process_released b1 t).data.clicks =
          (btn.data.clicks + 1) % 256 := by
        simp [process_released, e1]
      have hrr : (process_released b1 t).data.time_released = t := rfl
      by_cases hc : btn.param.click_window_ms = 0
      · have hicw : is_click_window_closed (process_released b1 t) t = true := by
          have hc1 : b1.param.click_window_ms = 0 := hc
          simp [is_click_window_closed, process_released, usub32_self, hc1]
        simp [hm, hicw, hs1, hs2, hs3, hrr, usub32_self, Nat.le_zero, hc]
      · have hicw : is_click_window_closed (process_released b1 t) t = false := by
          have hc1 : b1.param.click_window_ms ≠ 0 := hc
          simp [is_click_window_closed, process_released, usub32_self,
            Nat.le_zero, hc1]
        simp [hm, hicw, hs1, hs2, hs3, hrc, hrr, usub32_self, Nat.le_zero, hc]
    · rw [if_neg h2]
      by_cases h3 : is_button_down b1
      · rw [if_pos h3]
        unfold finalize
        have hm : ¬ (STATE_DOWN &&& activity_mask = 0) := by decide
        by_cases hf : (process_holding b1 t).1 <;>
          simp [hm, hf, process_holding_snd_clicks, e1]
      · rw [if_neg h3]
        by_cases h4 : is_button_up b1
        · rw [if_pos h4]
          unfold finalize
          have hm : STATE_UP &&& activity_mask = 0 := by decide
          have hs1 : STATE_UP ≠ STATE_PRESSED := by decide
          have hs2 : STATE_UP ≠ STATE_DOWN := by decide
          have hs3 : STATE_UP ≠ STATE_DEBOUNCING := by decide
          by_cases hw : is_click_window_closed b1 t
          · have hwP : btn.param.click_window_ms ≤
                usub32 t btn.data.time_released := by
              have h := hw
              simp only [is_click_window_closed, decide_eq_true_eq] at h
              exact h
            simp [hm, hw, hwP, hs1, hs2, hs3, e1, e2]
          · have hwP : ¬ btn.param.click_window_ms ≤
                usub32 t btn.data.time_released := by
              intro hle
              apply hw
              simp only [is_click_window_closed, decide_eq_true_eq]
              exact hle
            simp [hm, hw, hwP, hs1, hs2, hs3, e1, e2]
        · rw [if_neg h4]
          by_cases h5 : get_waveform b1 ≠ 0
          · rw [if_pos h5]
            unfold finalize
            have hm : ¬ (STATE_DEBOUNCING &&& activity_mask = 0) := by decide
            simp [hm, e1]
          · rw [if_neg h5]
            unfold finalize
            have hm : STATE_IDLE &&& activity_mask = 0 := by decide
            have hs1 : STATE_IDLE ≠ STATE_PRESSED := by decide
            have hs2 : STATE_IDLE ≠ STATE_DOWN := by decide
            have hs3 : STATE_IDLE ≠ STATE_DEBOUNCING := by decide
            by_cases hw : is_click_window_closed b1 t
            · have hwP : btn.param.click_window_ms ≤
                  usub32 t btn.data.time_released := by
                have h := hw
                simp only [is_click_window_closed, decide_eq_true_eq] at h
                exact h
              simp [hm, hw, hwP, hs1, hs2, hs3, e1, e2]
            · have hwP : ¬ btn.param.click_window_ms ≤
                  usub32 t btn.data.time_released := by
                intro hle
                apply hw
                simp only [is_click_window_closed, decide_eq_true_eq]
                exact hle
              simp [hm, hw, hwP, hs1, hs2, hs3, e1, e2]

/-- Witness for claim C5 at a concrete input: one up-pulse on the idle
default instance, whose click window has not closed state-wise. -/
theorem clicks_window_reset_rule_witness :
    usub32 10 btnA.timestamp / btnA.param.sampling_interval_ms ≠ 0 ∧
    (process_button btnA 10 fUp).2.2.data.clicks =
      (if ((process_button btnA 10 fUp).2.1 ≠ STATE_PRESSED ∧
            (process_button btnA 10 fUp).2.1 ≠ STATE_DOWN ∧
            (process_button btnA 10 fUp).2.1 ≠ STATE_DEBOUNCING) ∧
          btnA.param.click_window_ms ≤
            usub32 10 (process_button btnA 10 fUp).2.2.data.time_released then 0
      else if (process_button btnA 10 fUp).1 = BUTTON_EVT_RELEASED then
        (btnA.data.clicks + 1) % 256
      else btnA.data.clicks) :=
  ⟨by decide, clicks_window_reset_rule btnA 10 fUp (by decide)⟩
